import Mathlib

/-!
Verification of the repository-synchronization core of `krackn88/kai`.

The embedded code is the `GitHubSyncService` class (frontend service, found in
the repository sources) together with the `GitHubSyncPanel` React component
(`frontend/src/components/GitHubSync/GitHubSync_GitHubSyncPanel.jsx`).

Modelling conventions:
- JavaScript timer and socket callbacks are modelled by an explicit action
  alphabet (`Act`) and a step function on the service state (`SvcState`):
  `setTimeout(() => this.connectWebSocket(), delay)` increments a counter of
  scheduled retry timers, and `Act.retryFire` models one of those timers
  firing.  The service never stores the timer handle, so no operation can
  cancel a scheduled retry; this is reflected by `scheduledRetries` only
  being decremented when a timer fires.
- `this.socket !== null` is modelled by `socketOpen`; `this.pollingTimeout`
  by `pollingActive`.  `socket.close(1000, ...)` triggers the `onclose`
  handler with code 1000, which is applied synchronously.
- Network results (poll responses, manual-sync responses) are inputs of the
  corresponding functions, as `Except String _` values.
- Emitted notifications (`notifyListeners`) are collected in a `List Output`.
- Timestamps (ISO date strings in the code, ordered lexicographically which
  coincides with chronological order) are modelled as `Nat`.
- Listener callbacks (compared by JavaScript reference identity `!==`) are
  modelled as `Nat` identifiers.
-/

namespace GitHubSync

/-- A diff summary `{added, modified, deleted}` as returned by the backend. -/
structure Changes where
  added : Nat
  modified : Nat
  deleted : Nat
deriving DecidableEq

/-- Configuration of `GitHubSyncService` (constructor defaults, lines 202-209).
`baseApiUrl` only selects the URL of remote calls and is omitted.
`pollingInterval` is an `Int` so that out-of-range values (e.g. negative
intervals) are expressible, as they are in JavaScript. -/
structure SyncConfig where
  pollingInterval : Int
  useWebhooks : Bool
  usePolling : Bool
  maxRetries : Nat
  retryDelay : Nat
deriving DecidableEq

/-- Constructor defaults: 60000 ms polling, both channels on, 3 retries,
5000 ms base retry delay. -/
def defaultConfig : SyncConfig :=
  { pollingInterval := 60000
    useWebhooks := true
    usePolling := true
    maxRetries := 3
    retryDelay := 5000 }

/-- Partial options object passed to `startSync(options)`; absent keys leave
the current configuration untouched (spread merge, line 242). -/
structure SyncOptions where
  pollingInterval : Option Int := none
  useWebhooks : Option Bool := none
  usePolling : Option Bool := none
  maxRetries : Option Nat := none
  retryDelay : Option Nat := none

/-- Spread merge `{...this.config, ...options}` (line 242). -/
def mergeConfig (c : SyncConfig) (o : SyncOptions) : SyncConfig :=
  { pollingInterval := o.pollingInterval.getD c.pollingInterval
    useWebhooks := o.useWebhooks.getD c.useWebhooks
    usePolling := o.usePolling.getD c.usePolling
    maxRetries := o.maxRetries.getD c.maxRetries
    retryDelay := o.retryDelay.getD c.retryDelay }

/-- Payload of a `repo-updated` notification.  Webhook events carry no
timestamp field; poll events carry the repository's `lastUpdate`; manual
events carry the returned diff summary. -/
structure UpdateData where
  repository : String
  source : String
  lastUpdate : Option Nat := none
  changes : Option Changes := none
deriving DecidableEq

/-- Observable effects of the service: listener notifications plus the
scheduling actions taken by the code (a retry timer being set, a WebSocket
connection attempt via `new WebSocket`, a polling interval being set). -/
inductive Output where
  | connectionStatus (status : String) (method : Option String)
  | syncErrorEvent (error : String)
  | repoUpdated (data : UpdateData)
  | retryScheduled (attempt : Nat) (delay : Nat)
  | connectAttempt
  | pollStarted (interval : Int)
deriving DecidableEq

/-- Returns `true` on a `retryScheduled` output (a `setTimeout` of a
reconnection). -/
def Output.isRetrySched : Output → Bool
  | .retryScheduled _ _ => true
  | _ => false

/-- Mutable state of the singleton `GitHubSyncService` (lines 211-220),
plus the count of pending `setTimeout` reconnection timers, which the code
creates but never stores a handle to. -/
structure SvcState where
  config : SyncConfig
  isConnected : Bool
  socketOpen : Bool
  pollingActive : Bool
  retryCount : Nat
  scheduledRetries : Nat
deriving DecidableEq

/-- State right after the constructor runs. -/
def initState : SvcState :=
  { config := defaultConfig
    isConnected := false
    socketOpen := false
    pollingActive := false
    retryCount := 0
    scheduledRetries := 0 }

/-- Model of `stopPolling()` (lines 426-432): clears the interval if set. -/
def stopPolling (s : SvcState) : SvcState × List Output :=
  ({ s with pollingActive := false }, [])

/-- Model of `startPolling()` (lines 407-421): clears any existing interval,
performs an immediate poll (whose network result is delivered by a later
`Act.pollTick`), and sets a recurring interval at the configured rate. -/
def startPolling (s : SvcState) : SvcState × List Output :=
  ({ s with pollingActive := true }, [Output.pollStarted s.config.pollingInterval])

/-- Model of the `socket.onclose` handler (lines 303-328), applied to a state
in which the socket has already transitioned to closed.  For a
non-intentional close (code other than 1000): while `retryCount <
maxRetries`, increments the counter and schedules a reconnect after
`retryCount * retryDelay` ms; otherwise emits a terminal sync-error and, if
polling is enabled and not running, starts it. -/
def oncloseHandler (code : Nat) (s : SvcState) : SvcState × List Output :=
  let s1 : SvcState := { s with isConnected := false }
  let outs : List Output := [Output.connectionStatus "disconnected" none]
  if code ≠ 1000 then
    if s.retryCount < s.config.maxRetries then
      let n := s.retryCount + 1
      ({ s1 with retryCount := n, scheduledRetries := s.scheduledRetries + 1 },
        outs ++ [Output.retryScheduled n (n * s.config.retryDelay)])
    else
      let outs2 := outs ++ [Output.syncErrorEvent "WebSocket connection failed after max retries"]
      if s.config.usePolling && !s.pollingActive then
        let r := startPolling s1
        (r.1, outs2 ++ r.2)
      else
        (s1, outs2)
  else
    (s1, outs)

/-- Model of the `socket.onopen` handler (lines 286-291): marks the service
connected and resets the retry counter. -/
def handleOpen (s : SvcState) : SvcState × List Output :=
  ({ s with isConnected := true, retryCount := 0 },
    [Output.connectionStatus "connected" (some "webhook")])

/-- Model of `disconnectWebSocket()` (lines 347-356): `socket.close(1000,
"Intentional disconnect")` — the close triggers the `onclose` handler with
the intentional code 1000 — then the socket reference is dropped. -/
def disconnectWebSocket (s : SvcState) : SvcState × List Output :=
  if s.socketOpen then
    oncloseHandler 1000 { s with socketOpen := false }
  else
    (s, [])

/-- Model of `connectWebSocket()` (lines 272-342): disconnects any existing
socket, then creates a new `WebSocket` (the connection attempt; `onopen` /
`onclose` arrive later as environment actions). -/
def connectWebSocket (s : SvcState) : SvcState × List Output :=
  let r := disconnectWebSocket s
  ({ r.1 with socketOpen := true }, r.2 ++ [Output.connectAttempt])

/-- Model of `startSync(options)` (lines 240-256): merges the options into
the configuration — with no validation — emits a connecting status, then
starts each enabled channel. -/
def startSync (options : SyncOptions) (s : SvcState) : SvcState × List Output :=
  let cfg := mergeConfig s.config options
  let s0 : SvcState := { s with config := cfg }
  let outs : List Output := [Output.connectionStatus "connecting" none]
  let r1 := if cfg.useWebhooks then connectWebSocket s0 else (s0, [])
  let r2 := if cfg.usePolling then startPolling r1.1 else (r1.1, [])
  (r2.1, outs ++ r1.2 ++ r2.2)

/-- Model of `stopSync()` (lines 261-267): intentional disconnect, stop
polling, clear the connected flag, emit a disconnected status.  Note that
nothing here touches `scheduledRetries`: the code holds no handle to a
pending reconnection `setTimeout`, so it cannot cancel one. -/
def stopSync (s : SvcState) : SvcState × List Output :=
  let r1 := disconnectWebSocket s
  let r2 := stopPolling r1.1
  ({ r2.1 with isConnected := false },
    r1.2 ++ r2.2 ++ [Output.connectionStatus "disconnected" none])

/-- One repository's entry in the backend `GET status` response. -/
structure RepoStatus where
  name : String
  hasChanges : Bool
  lastUpdate : Nat
  changes : Changes
deriving DecidableEq

/-- The `repo-updated` notifications produced by one successful poll cycle
(lines 445-454): one per repository reporting pending changes. -/
def pollEvents (repos : List RepoStatus) : List Output :=
  repos.filterMap fun repo =>
    if repo.hasChanges then
      some (Output.repoUpdated
        { repository := repo.name
          source := "polling"
          lastUpdate := some repo.lastUpdate
          changes := some repo.changes })
    else
      none

/-- Model of one execution of `pollRepositories()` (lines 437-479) with the
given network result.  Success notifies per-repository updates and, when the
service was not marked connected, a connected-via-polling status.  Failure
emits a sync-error and, when the service was marked connected, an error
status.  Neither branch touches the polling interval. -/
def pollRepositories (response : Except String (List RepoStatus)) (s : SvcState) :
    SvcState × List Output :=
  match response with
  | .ok repos =>
    let outs := pollEvents repos
    if !s.isConnected then
      ({ s with isConnected := true },
        outs ++ [Output.connectionStatus "connected" (some "polling")])
    else
      (s, outs)
  | .error _ =>
    let outs : List Output := [Output.syncErrorEvent "Repository polling failed"]
    if s.isConnected then
      ({ s with isConnected := false },
        outs ++ [Output.connectionStatus "error" none])
    else
      (s, outs)

/-- Body of a successful `POST sync` response. -/
structure SyncResponse where
  changes : Changes
deriving DecidableEq

/-- The `repo-updated` payload emitted after a successful manual sync
(lines 500-504). -/
def manualEvent (repoName : String) (changes : Changes) : UpdateData :=
  { repository := repoName
    source := "manual"
    lastUpdate := none
    changes := some changes }

/-- Model of `syncRepository(repoName, options)` (lines 487-516) with the
given network result.  On success it notifies `repo-updated` with
`source: "manual"` and returns the response body to the caller; on failure
it notifies `sync-error` and re-raises the error to the caller. -/
def syncRepository (repoName : String) (response : Except String SyncResponse)
    (s : SvcState) : SvcState × List Output × Except String SyncResponse :=
  match response with
  | .ok resp =>
    (s, [Output.repoUpdated (manualEvent repoName resp.changes)], .ok resp)
  | .error e =>
    (s, [Output.syncErrorEvent ("Failed to sync repository " ++ repoName)], .error e)

/-- Operations of `GitHubSyncService` that contain a `try`/`catch` or call
the network. -/
inductive SvcOp where
  | startSyncOp
  | stopSyncOp
  | connectWebSocketOp
  | handleWebSocketMessageOp
  | startPollingOp
  | stopPollingOp
  | pollRepositoriesOp
  | syncRepositoryOp
deriving DecidableEq

/-- Whether the operation's failure path calls
`notifyListeners('sync-error', ...)`: `connectWebSocket` (catch, lines
330-341), `pollRepositories` (catch, lines 466-478) and `syncRepository`
(catch, lines 508-515) do; `handleWebSocketMessage` (catch, lines 399-401)
only logs; the remaining operations have no failure path. -/
def emitsSyncErrorOnFailure : SvcOp → Bool
  | .connectWebSocketOp => true
  | .pollRepositoriesOp => true
  | .syncRepositoryOp => true
  | _ => false

/-- Whether the operation's failure path re-raises to its caller: only
`syncRepository` ends its catch block with `throw error` (line 514); every
other catch block swallows the error. -/
def rethrowsOnFailure : SvcOp → Bool
  | .syncRepositoryOp => true
  | _ => false

/-- Environment actions driving the service: a transport-level socket close
with a given code, a scheduled reconnection timer firing, the socket opening,
and a polling tick returning a network result. -/
inductive Act where
  | closeEvt (code : Nat)
  | retryFire
  | openEvt
  | pollTick (response : Except String (List RepoStatus))

/-- One environment action applied to the service state.  Actions that do
not apply (close/open of a socket that is not there, a timer that is not
pending, a tick without an active interval) are no-ops. -/
def step (s : SvcState) (a : Act) : SvcState × List Output :=
  match a with
  | .closeEvt code =>
    if s.socketOpen then oncloseHandler code { s with socketOpen := false } else (s, [])
  | .retryFire =>
    if 0 < s.scheduledRetries then
      connectWebSocket { s with scheduledRetries := s.scheduledRetries - 1 }
    else
      (s, [])
  | .openEvt =>
    if s.socketOpen then handleOpen s else (s, [])
  | .pollTick response =>
    if s.pollingActive then pollRepositories response s else (s, [])

/-- Runs a sequence of environment actions, collecting all outputs. -/
def run (s : SvcState) : List Act → SvcState × List Output
  | [] => (s, [])
  | a :: rest =>
    let r1 := step s a
    let r2 := run r1.1 rest
    (r2.1, r1.2 ++ r2.2)

/-- One row of the panel's `repositories` state.  `lastUpdate` is the value
the panel writes — `new Date().toISOString()` at processing time, modelled
as the current wall-clock `Nat`. -/
structure RepoEntry where
  name : String
  lastUpdate : Nat
  hasChanges : Bool
  lastEvent : Option UpdateData
deriving DecidableEq

/-- One entry of the panel's `syncHistory` state.  Update entries carry the
repository and the event source; error entries carry the `error: true` mark
(lines 103-111 and 133-140 of the panel). -/
structure HistEntry where
  timestamp : Nat
  repository : Option String
  source : Option String
  isError : Bool
deriving DecidableEq

/-- Component state of `GitHubSyncPanel` relevant to synchronization. -/
structure PanelState where
  repositories : List RepoEntry
  syncHistory : List HistEntry
  error : Option String
deriving DecidableEq

/-- Initial component state (lines 49-63 of the panel). -/
def initialPanel : PanelState :=
  { repositories := [], syncHistory := [], error := none }

/-- The history-ring update `[entry, ...prev.slice(0, 19)]` shared by
`handleRepoUpdate` (line 103) and `handleSyncError` (line 133): prepend the
new entry and keep at most the 19 most recent previous ones. -/
def record (e : HistEntry) (prev : List HistEntry) : List HistEntry :=
  e :: prev.take 19

/-- The `setRepositories` updater of `handleRepoUpdate` (lines 73-100):
the first entry whose name matches the event's repository is overwritten
with `lastUpdate := now`, `hasChanges := true` and the event as `lastEvent`;
if none matches, a fresh entry is appended. -/
def updateRepos (now : Nat) (data : UpdateData) : List RepoEntry → List RepoEntry
  | [] =>
    [{ name := data.repository, lastUpdate := now, hasChanges := true,
       lastEvent := some data }]
  | r :: rs =>
    if r.name = data.repository then
      { r with lastUpdate := now, hasChanges := true, lastEvent := some data } :: rs
    else
      r :: updateRepos now data rs

/-- Model of the panel's `handleRepoUpdate(data)` callback (lines 69-115),
executed at wall-clock time `now`: updates the repository row, prepends a
history entry, clears the error banner. -/
def handleRepoUpdate (now : Nat) (data : UpdateData) (st : PanelState) : PanelState :=
  { repositories := updateRepos now data st.repositories
    syncHistory :=
      record
        { timestamp := now, repository := some data.repository,
          source := some data.source, isError := false }
        st.syncHistory
    error := none }

/-- Model of the panel's `handleSyncError(data)` callback (lines 128-141),
executed at wall-clock time `now`: shows the error and prepends an error
history entry. -/
def handleSyncError (now : Nat) (err : String) (st : PanelState) : PanelState :=
  let entry : HistEntry :=
    { timestamp := now, repository := none, source := none, isError := true }
  { st with
    error := some err
    syncHistory := record entry st.syncHistory }

/-- An event delivered to the panel, tagged with its processing time. -/
inductive PanelEvent where
  | update (now : Nat) (data : UpdateData)
  | errEvt (now : Nat) (err : String)

/-- Dispatch of one delivered event to the matching panel callback. -/
def applyPanelEvent (st : PanelState) (e : PanelEvent) : PanelState :=
  match e with
  | .update now d => handleRepoUpdate now d st
  | .errEvt now err => handleSyncError now err st

/-- First repository row with the given name (the panel's
`findIndex(repo => repo.name === data.repository)` view). -/
def findRepo (name : String) : List RepoEntry → Option RepoEntry
  | [] => none
  | r :: rs => if r.name = name then some r else findRepo name rs

/-- Modelled from the spec: the code contains no configuration validation at
all, so the spec's notion of an invalid configuration (`ConfigError`,
spec §7) is modelled from the spec's words.  The spec does not enumerate the
invalid configurations; minimally, a non-positive `pollingIntervalMs` is
invalid for a timer-driven poll schedule. -/
def validConfigSpec (c : SyncConfig) : Prop :=
  0 < c.pollingInterval

instance (c : SyncConfig) : Decidable (validConfigSpec c) := by
  unfold validConfigSpec
  infer_instance

/-! Helper lemmas shared by the claim theorems. -/

/-- The history-ring update never produces more than 20 entries, whatever
the previous list was. -/
theorem record_length_le (e : HistEntry) (prev : List HistEntry) :
    (record e prev).length ≤ 20 := by
  simp only [record, List.length_cons, List.length_take]
  omega

/-- Both panel callbacks update `syncHistory` through `record`. -/
theorem applyPanelEvent_syncHistory (st : PanelState) (e : PanelEvent) :
    ∃ h, (applyPanelEvent st e).syncHistory = record h st.syncHistory := by
  cases e with
  | update now d => exact ⟨_, rfl⟩
  | errEvt now err => exact ⟨_, rfl⟩

/-- A poll cycle only ever notifies `repo-updated` events; it never attempts
a WebSocket connection. -/
theorem connectAttempt_not_mem_pollEvents (repos : List RepoStatus) :
    Output.connectAttempt ∉ pollEvents repos := by
  intro h
  simp only [pollEvents, List.mem_filterMap] at h
  obtain ⟨repo, -, hrepo⟩ := h
  by_cases hc : repo.hasChanges <;> simp [hc] at hrepo

/-- A poll cycle leaves the socket state and the pending retry timers alone
and never attempts a WebSocket connection. -/
theorem pollRepositories_frame (r : Except String (List RepoStatus)) (s : SvcState) :
    (pollRepositories r s).1.scheduledRetries = s.scheduledRetries ∧
    (pollRepositories r s).1.socketOpen = s.socketOpen ∧
    Output.connectAttempt ∉ (pollRepositories r s).2 := by
  cases r with
  | ok repos =>
    cases hc : s.isConnected <;>
      simp [pollRepositories, hc, connectAttempt_not_mem_pollEvents repos]
  | error e =>
    cases hc : s.isConnected <;> simp [pollRepositories, hc]

/-- From a quiescent service state — no pending retry timer, no socket — no
environment action can ever produce a WebSocket connection attempt, and the
state stays quiescent. -/
theorem run_no_connect_of_quiescent (acts : List Act) :
    ∀ s : SvcState, s.scheduledRetries = 0 → s.socketOpen = false →
      (run s acts).1.scheduledRetries = 0 ∧ (run s acts).1.socketOpen = false ∧
      Output.connectAttempt ∉ (run s acts).2 := by
  induction acts with
  | nil =>
    intro s h1 h2
    exact ⟨h1, h2, by simp [run]⟩
  | cons a rest ih =>
    intro s h1 h2
    have hstep : (step s a).1.scheduledRetries = 0 ∧ (step s a).1.socketOpen = false ∧
        Output.connectAttempt ∉ (step s a).2 := by
      cases a with
      | closeEvt code => simp [step, h1, h2]
      | retryFire => simp [step, h1, h2]
      | openEvt => simp [step, h1, h2]
      | pollTick r =>
        by_cases hp : s.pollingActive
        · have hf := pollRepositories_frame r s
          simp only [step, hp, if_true]
          exact ⟨hf.1.trans h1, hf.2.1.trans h2, hf.2.2⟩
        · simp [step, hp, h1, h2]
    have hrest := ih (step s a).1 hstep.1 hstep.2.1
    refine ⟨hrest.1, hrest.2.1, ?_⟩
    simp only [run, List.mem_append]
    rintro (h | h)
    · exact hstep.2.2 h
    · exact hrest.2.2 h

/-- A repository row touched by `handleRepoUpdate` for the event's own
repository ends up with the processing time as `lastUpdate`, the
pending-changes flag set, and the event recorded. -/
theorem findRepo_updateRepos_self (now : Nat) (data : UpdateData)
    (repos : List RepoEntry) :
    ∃ entry, findRepo data.repository (updateRepos now data repos) = some entry ∧
      entry.lastUpdate = now ∧ entry.hasChanges = true ∧ entry.lastEvent = some data := by
  induction repos with
  | nil =>
    refine ⟨⟨data.repository, now, true, some data⟩, ?_, rfl, rfl, rfl⟩
    simp [updateRepos, findRepo]
  | cons r rs ih =>
    by_cases h : r.name = data.repository
    · refine ⟨⟨r.name, now, true, some data⟩, ?_, rfl, rfl, rfl⟩
      simp [updateRepos, findRepo, h]
    · obtain ⟨entry, he, h1, h2, h3⟩ := ih
      refine ⟨entry, ?_, h1, h2, h3⟩
      simpa [updateRepos, findRepo, h] using he

/-- Rows of repositories other than the event's are untouched by
`handleRepoUpdate`. -/
theorem findRepo_updateRepos_other (now : Nat) (data : UpdateData) (name : String)
    (hne : name ≠ data.repository) (repos : List RepoEntry) :
    findRepo name (updateRepos now data repos) = findRepo name repos := by
  induction repos with
  | nil => simp [updateRepos, findRepo, Ne.symm hne]
  | cons r rs ih =>
    by_cases h : r.name = data.repository
    · by_cases h2 : r.name = name
      · exact absurd (h2.symm.trans h) hne
      · simp [updateRepos, findRepo, h, h2, Ne.symm hne]
    · by_cases h2 : r.name = name
      · simp [updateRepos, findRepo, h, h2, hne]
      · simp [updateRepos, findRepo, h, h2, hne, ih]

/-! Claim theorems. -/

/-- C3: whenever the WebSocket reconnect attempts are exhausted (the retry
counter has reached `maxRetries` when a non-intentional close arrives) and
`usePolling` is true, polling is active afterwards — started at that point
if it was not already running — so the system never ends up with zero
active channels while polling is enabled. -/
theorem C3_exhaustion_starts_polling :
    ∀ (s : SvcState) (code : Nat), code ≠ 1000 →
      s.config.maxRetries ≤ s.retryCount → s.config.usePolling = true →
      (oncloseHandler code s).1.pollingActive = true ∧
      (s.pollingActive = false →
        Output.pollStarted s.config.pollingInterval ∈ (oncloseHandler code s).2) := by
  intro s code hcode hmax hpoll
  cases hpa : s.pollingActive with
  | false =>
    constructor
    · simp [oncloseHandler, hcode, Nat.not_lt.mpr hmax, hpoll, hpa, startPolling]
    · intro _
      simp [oncloseHandler, hcode, Nat.not_lt.mpr hmax, hpoll, hpa, startPolling]
  | true =>
    constructor
    · simp [oncloseHandler, hcode, Nat.not_lt.mpr hmax, hpoll, hpa]
    · exact fun h => absurd h (by decide)

/-- C3 witness: with the default configuration (`maxRetries = 3`,
`usePolling = true`), a fifth consecutive failure (retry counter already at
3) with polling not yet running leaves polling active. -/
theorem C3_witness :
    (oncloseHandler 1006
      { config := defaultConfig, isConnected := false, socketOpen := false,
        pollingActive := false, retryCount := 3, scheduledRetries := 0 }).1.pollingActive
      = true :=
  (C3_exhaustion_starts_polling _ 1006 (by decide) (by decide) rfl).1

/-- C5: a failed manual sync (`syncRepository`) both emits a `sync-error`
event and re-raises the error to the caller, and it is the only operation
of the service whose failure path does both — every other catch block
swallows the error after (at most) notifying. -/
theorem C5_manual_sync_failure_both_ways :
    (∀ (repoName e : String) (s : SvcState),
      (syncRepository repoName (.error e) s).2.2 = .error e ∧
      Output.syncErrorEvent ("Failed to sync repository " ++ repoName) ∈
        (syncRepository repoName (.error e) s).2.1) ∧
    (∀ op : SvcOp,
      (emitsSyncErrorOnFailure op && rethrowsOnFailure op) = true ↔
        op = SvcOp.syncRepositoryOp) := by
  constructor
  · intro repoName e s
    exact ⟨rfl, by simp [syncRepository]⟩
  · intro op
    cases op <;> simp [emitsSyncErrorOnFailure, rethrowsOnFailure]

/-- C6: reconnect backoff is linear with no maximum-delay cap: a
non-intentional close with the retry counter at `k < maxRetries` schedules
attempt `k + 1` after exactly `(k + 1) * retryDelay` ms, while a close with
the counter at `maxRetries` (or beyond) schedules nothing — so attempts are
numbered `1, ..., maxRetries`, each with delay `attempt * retryDelay`, and
none occur after the counter would exceed `maxRetries`. -/
theorem C6_linear_backoff :
    ∀ (s : SvcState) (code : Nat), code ≠ 1000 →
      (s.retryCount < s.config.maxRetries →
        (oncloseHandler code s).1.retryCount = s.retryCount + 1 ∧
        Output.retryScheduled (s.retryCount + 1)
            ((s.retryCount + 1) * s.config.retryDelay) ∈ (oncloseHandler code s).2) ∧
      (s.config.maxRetries ≤ s.retryCount →
        (oncloseHandler code s).1.retryCount = s.retryCount ∧
        ((oncloseHandler code s).2.all fun o => !o.isRetrySched) = true) := by
  intro s code hcode
  constructor
  · intro h
    constructor
    · simp [oncloseHandler, hcode, h]
    · simp [oncloseHandler, hcode, h]
  · intro h
    cases hcond : s.config.usePolling && !s.pollingActive <;>
      simp [oncloseHandler, hcode, Nat.not_lt.mpr h, hcond, startPolling,
        Output.isRetrySched]

/-- C6 witness: with the default 5000 ms base delay and the counter at 1,
the second reconnect attempt is scheduled after 2 × 5000 = 10000 ms. -/
theorem C6_witness :
    Output.retryScheduled 2 10000 ∈
      (oncloseHandler 1006
        { config := defaultConfig, isConnected := false, socketOpen := false,
          pollingActive := true, retryCount := 1, scheduledRetries := 1 }).2 :=
  ((C6_linear_backoff _ 1006 (by decide)).1 (by decide)).2

/-- C7: the sync-history ring never holds more than 20 entries across any
sequence of recorded change events, and eviction is strictly FIFO — when a
new entry is recorded over a full ring of 20, the evicted entry is exactly
the oldest (the last of the newest-first list). -/
theorem C7_history_ring :
    (∀ (e : HistEntry) (prev : List HistEntry), (record e prev).length ≤ 20) ∧
    (∀ (e : HistEntry) (prev : List HistEntry), prev.length = 20 →
      record e prev = e :: prev.dropLast) ∧
    (∀ (events : List PanelEvent) (st : PanelState), st.syncHistory.length ≤ 20 →
      ((events.foldl applyPanelEvent st).syncHistory.length ≤ 20)) := by
  refine ⟨record_length_le, ?_, ?_⟩
  · intro e prev h
    simp [record, List.dropLast_eq_take, h]
  · intro events
    induction events with
    | nil => intro st h; simpa using h
    | cons ev rest ih =>
      intro st _
      simp only [List.foldl_cons]
      apply ih
      obtain ⟨entry, hrec⟩ := applyPanelEvent_syncHistory st ev
      rw [hrec]
      exact record_length_le entry st.syncHistory

/-- C7 witness: recording over a full ring of 20 entries drops exactly the
oldest one, and 1000 interleaved events (here a generic fold from the empty
initial state) leave at most 20 entries. -/
theorem C7_witness :
    record { timestamp := 21, repository := none, source := none, isError := false }
        (List.replicate 20
          { timestamp := 0, repository := none, source := none, isError := false }) =
      { timestamp := 21, repository := none, source := none, isError := false } ::
        (List.replicate 20
          ({ timestamp := 0, repository := none, source := none,
             isError := false } : HistEntry)).dropLast ∧
    ((List.replicate 1000 (PanelEvent.errEvt 0 "poll failed")).foldl
        applyPanelEvent initialPanel).syncHistory.length ≤ 20 :=
  ⟨C7_history_ring.2.1 _ _ (by simp),
    C7_history_ring.2.2 _ initialPanel (by simp [initialPanel])⟩

/-- C8 counterexample: a poll that fails while the service is not marked
connected — e.g. the very first poll after construction — emits only the
sync-error and no connection-status output at all, in particular not the
`error` status the claim says every failed poll sets. -/
theorem C8_counterexample :
    (pollRepositories (.error "network down") initState).2 =
      [Output.syncErrorEvent "Repository polling failed"] ∧
    Output.connectionStatus "error" none ∉
      (pollRepositories (.error "network down") initState).2 := by
  decide

/-- C8 as amended: a successful poll cycle marks the connection connected
(notifying `connected/polling` when it was not already marked connected),
a failed one emits a `sync-error` and marks the connection not connected
(notifying the `error` status exactly when the service was previously
marked connected — a failure while already disconnected emits no status
event), and neither outcome touches the polling schedule or introduces any
backoff (no retry is ever scheduled by a poll). -/
theorem C8_poll_cycle :
    ∀ (s : SvcState) (repos : List RepoStatus) (e : String),
      (pollRepositories (.ok repos) s).1.isConnected = true ∧
      (pollRepositories (.ok repos) s).1.pollingActive = s.pollingActive ∧
      (s.isConnected = false →
        Output.connectionStatus "connected" (some "polling") ∈
          (pollRepositories (.ok repos) s).2) ∧
      (pollRepositories (.error e) s).1.isConnected = false ∧
      (pollRepositories (.error e) s).1.pollingActive = s.pollingActive ∧
      Output.syncErrorEvent "Repository polling failed" ∈
        (pollRepositories (.error e) s).2 ∧
      (s.isConnected = true →
        Output.connectionStatus "error" none ∈ (pollRepositories (.error e) s).2) ∧
      ((pollRepositories (.error e) s).2.all fun o => !o.isRetrySched) = true := by
  intro s repos e
  cases hc : s.isConnected <;>
    simp [pollRepositories, hc, Output.isRetrySched]

/-- C8 witness: from the freshly constructed service (not yet marked
connected), a successful poll notifies `connected` via the polling method;
from a state previously marked connected, a failing poll notifies the
`error` status. -/
theorem C8_witness :
    Output.connectionStatus "connected" (some "polling") ∈
      (pollRepositories (.ok []) initState).2 ∧
    Output.connectionStatus "error" none ∈
      (pollRepositories (.error "network down")
        { config := defaultConfig, isConnected := true, socketOpen := true,
          pollingActive := true, retryCount := 0, scheduledRetries := 0 }).2 := by
  constructor
  · exact (C8_poll_cycle initState [] "network down").2.2.1 rfl
  · exact (C8_poll_cycle
      { config := defaultConfig, isConnected := true, socketOpen := true,
        pollingActive := true, retryCount := 0, scheduledRetries := 0 }
      [] "network down").2.2.2.2.2.2.1 rfl

/-- A webhook push event for repository `kai` (webhook payloads carry no
timestamp field the panel could read). -/
def cexWebhookEvent : UpdateData :=
  { repository := "kai", source := "webhook" }

/-- A poll event for `kai` carrying the backend timestamp 100. -/
def cexPollNew : UpdateData :=
  { repository := "kai", source := "polling", lastUpdate := some 100,
    changes := some ⟨1, 0, 0⟩ }

/-- An older poll event for `kai` carrying the backend timestamp 50,
arriving after the newer one. -/
def cexPollOld : UpdateData :=
  { repository := "kai", source := "polling", lastUpdate := some 50,
    changes := some ⟨0, 1, 0⟩ }

/-- The panel state after processing the webhook event at wall-clock 10, the
newer poll event at 11, and the older poll event at 12. -/
def cexPanelFinal : PanelState :=
  handleRepoUpdate 12 cexPollOld
    (handleRepoUpdate 11 cexPollNew
      (handleRepoUpdate 10 cexWebhookEvent initialPanel))

/-- A panel state holding one repository row with `lastUpdate = 3`. -/
def demoPanel : PanelState :=
  { repositories := [⟨"kai", 3, false, none⟩], syncHistory := [], error := none }

/-- The successful manual-sync response of the spec's scenario:
`{changes:{added:2,modified:1,deleted:0}}`. -/
def manualResponse : SyncResponse :=
  { changes := { added := 2, modified := 1, deleted := 0 } }

/-- Options with an invalid (negative) polling interval. -/
def badOptions : SyncOptions :=
  { pollingInterval := some (-5) }

/-- C1 counterexample: processing a webhook event and two poll events for
one ref (observed backend timestamps 100 then 50) at wall-clock times 10,
11, 12 stores `lastUpdate = 12` — the processing time of the last event —
and not the maximum timestamp observed among the events, which is 100.
The claim that the stored timestamp equals the maximum observed event
timestamp is false. -/
theorem C1_counterexample :
    ([cexWebhookEvent, cexPollNew, cexPollOld].filterMap
        UpdateData.lastUpdate).foldl max 0 = 100 ∧
    (findRepo "kai" cexPanelFinal.repositories).map RepoEntry.lastUpdate = some 12 ∧
    (some 12 : Option Nat) ≠ some 100 := by
  decide

/-- C1 as amended: `handleRepoUpdate` stores the wall-clock processing time
(`new Date().toISOString()`) as the ref's `lastUpdate`, ignoring any
event-carried timestamp.  Hence after an event the ref's stored value is
the processing time, other refs are untouched, and — because wall-clock
times are non-decreasing — the stored value never regresses; but it is the
processing time of the last event, not the maximum event timestamp. -/
theorem C1_amended :
    ∀ (st : PanelState) (now : Nat) (data : UpdateData),
      (∃ entry, findRepo data.repository
          (handleRepoUpdate now data st).repositories = some entry ∧
        entry.lastUpdate = now) ∧
      (∀ name, name ≠ data.repository →
        findRepo name (handleRepoUpdate now data st).repositories =
          findRepo name st.repositories) ∧
      (∀ name entry, findRepo name st.repositories = some entry →
        entry.lastUpdate ≤ now →
        ∃ entry2, findRepo name (handleRepoUpdate now data st).repositories =
          some entry2 ∧ entry.lastUpdate ≤ entry2.lastUpdate) := by
  intro st now data
  refine ⟨?_, ?_, ?_⟩
  · obtain ⟨entry, he, h1, -, -⟩ := findRepo_updateRepos_self now data st.repositories
    exact ⟨entry, he, h1⟩
  · intro name hne
    exact findRepo_updateRepos_other now data name hne st.repositories
  · intro name entry hfind hle
    by_cases hname : name = data.repository
    · subst hname
      obtain ⟨entry2, he, h1, -, -⟩ := findRepo_updateRepos_self now data st.repositories
      exact ⟨entry2, he, by rw [h1]; exact hle⟩
    · refine ⟨entry, ?_, le_refl _⟩
      show findRepo name (updateRepos now data st.repositories) = some entry
      rw [findRepo_updateRepos_other now data name hname st.repositories]
      exact hfind

/-- C1 amended witness: a row stored with `lastUpdate = 3` does not regress
when an event for a different repository is processed at wall-clock 5. -/
theorem C1_amended_witness :
    ∃ entry2, findRepo "kai"
        (handleRepoUpdate 5 ⟨"other", "polling", none, none⟩ demoPanel).repositories =
      some entry2 ∧ 3 ≤ entry2.lastUpdate := by
  obtain ⟨-, -, h3⟩ := C1_amended demoPanel 5 ⟨"other", "polling", none, none⟩
  exact h3 "kai" ⟨"kai", 3, false, none⟩ (by decide) (by decide)

/-- C2 counterexample: after a non-intentional socket drop schedules a
retry, calling `stopSync` (intentional close) does not cancel it — the code
stores no handle to the `setTimeout` — so the pending timer still fires and
a WebSocket reconnection is attempted after the intentional shutdown.  The
claim that no reconnect attempt ever fires after `stopSync` is false. -/
theorem C2_counterexample :
    Output.connectAttempt ∈
      (run (stopSync ((step ((startSync {} initState).1)
        (Act.closeEvt 1006)).1)).1 [Act.retryFire]).2 := by
  decide

/-- C2 as amended: `stopSync` closes the socket with the intentional code
1000 and the close handler schedules no retry for an intentional close; a
retry already scheduled before `stopSync` is, however, not cancelled and may
still fire.  Only when no retry is pending at the moment of `stopSync` is
no reconnection ever attempted afterwards, for every sequence of
environment actions. -/
theorem C2_amended :
    ∀ (s : SvcState) (acts : List Act), s.scheduledRetries = 0 →
      Output.connectAttempt ∉ (stopSync s).2 ∧
      Output.connectAttempt ∉ (run (stopSync s).1 acts).2 := by
  intro s acts h
  have hstop : (stopSync s).1.scheduledRetries = 0 ∧
      (stopSync s).1.socketOpen = false ∧
      Output.connectAttempt ∉ (stopSync s).2 := by
    by_cases ho : s.socketOpen <;>
      simp [stopSync, disconnectWebSocket, stopPolling, oncloseHandler, ho, h]
  exact ⟨hstop.2.2, (run_no_connect_of_quiescent acts _ hstop.1 hstop.2.1).2.2⟩

/-- C2 amended witness: stopping the freshly constructed service (no retry
pending) and then letting a retry timer event occur attempts no
reconnection. -/
theorem C2_amended_witness :
    Output.connectAttempt ∉ (run (stopSync initState).1 [Act.retryFire]).2 :=
  (C2_amended initState [Act.retryFire] rfl).2

/-- C4 counterexample: a successful manual sync of `org/repo` returning
`{changes:{added:2,modified:1,deleted:0}}` emits a `repo-updated` event
with `source: "manual"`, and the panel's handler then sets the stored
row's pending-changes flag to `true` — not `false` as the claim states. -/
theorem C4_counterexample :
    (syncRepository "org/repo" (.ok manualResponse) initState).2.1 =
      [Output.repoUpdated (manualEvent "org/repo" manualResponse.changes)] ∧
    (findRepo "org/repo" (handleRepoUpdate 7
        (manualEvent "org/repo" manualResponse.changes)
        initialPanel).repositories).map RepoEntry.hasChanges = some true ∧
    (some true : Option Bool) ≠ some false := by
  decide

/-- C4 as amended: a successful manual sync emits exactly one `repo-updated`
event with `source: "manual"`; processing it leaves the stored row with
`hasChanges = true` (the panel flags every update event as pending changes,
manual syncs included), records the event as the row's last event (so the
last event source is `"manual"`), and prepends exactly one history entry
with `source = "manual"`. -/
theorem C4_amended :
    ∀ (st : PanelState) (now : Nat) (repoName : String) (resp : SyncResponse)
      (s : SvcState),
      (syncRepository repoName (.ok resp) s).2.1 =
        [Output.repoUpdated (manualEvent repoName resp.changes)] ∧
      (∃ entry, findRepo repoName (handleRepoUpdate now
          (manualEvent repoName resp.changes) st).repositories = some entry ∧
        entry.hasChanges = true ∧
        entry.lastEvent = some (manualEvent repoName resp.changes) ∧
        entry.lastEvent.map UpdateData.source = some "manual") ∧
      (handleRepoUpdate now (manualEvent repoName resp.changes) st).syncHistory =
        { timestamp := now, repository := some repoName, source := some "manual",
          isError := false } :: st.syncHistory.take 19 := by
  intro st now repoName resp s
  refine ⟨rfl, ?_, rfl⟩
  obtain ⟨entry, he, -, h2, h3⟩ :=
    findRepo_updateRepos_self now (manualEvent repoName resp.changes) st.repositories
  exact ⟨entry, he, h2, h3, by rw [h3]; rfl⟩

/-- C9 counterexample: `startSync` with a negative polling interval — an
invalid configuration under any reading of the spec's `ConfigError` — is
not rejected: no error is produced, polling is started with the invalid
interval, and the WebSocket connection is attempted.  The claim that every
invalid configuration fails before any channel opens is false. -/
theorem C9_counterexample :
    ¬ validConfigSpec (mergeConfig initState.config badOptions) ∧
    (startSync badOptions initState).1.pollingActive = true ∧
    Output.pollStarted (-5) ∈ (startSync badOptions initState).2 ∧
    Output.connectAttempt ∈ (startSync badOptions initState).2 := by
  decide

/-- Connecting the WebSocket always performs a connection attempt. -/
theorem connectAttempt_mem_connectWebSocket (s : SvcState) :
    Output.connectAttempt ∈ (connectWebSocket s).2 := by
  simp [connectWebSocket]

/-- The `onclose` handler never changes the configuration. -/
theorem oncloseHandler_config (code : Nat) (s : SvcState) :
    (oncloseHandler code s).1.config = s.config := by
  simp only [oncloseHandler, startPolling]
  split_ifs <;> rfl

/-- Connecting the WebSocket never changes the configuration. -/
theorem connectWebSocket_config (s : SvcState) :
    (connectWebSocket s).1.config = s.config := by
  simp only [connectWebSocket, disconnectWebSocket]
  split_ifs with h
  · exact oncloseHandler_config 1000 _
  · rfl

/-- C9 as amended: `startSync` performs no configuration validation at all:
it merges the given options into the configuration and unconditionally
starts each enabled channel — the WebSocket when `useWebhooks`, polling
(at whatever interval was configured) when `usePolling` — whether or not
the configuration is valid. -/
theorem C9_amended :
    ∀ (options : SyncOptions) (s : SvcState),
      (startSync options s).1.config = mergeConfig s.config options ∧
      ((mergeConfig s.config options).usePolling = true →
        (startSync options s).1.pollingActive = true ∧
        Output.pollStarted (mergeConfig s.config options).pollingInterval ∈
          (startSync options s).2) ∧
      ((mergeConfig s.config options).useWebhooks = true →
        Output.connectAttempt ∈ (startSync options s).2) := by
  intro options s
  cases hw : (mergeConfig s.config options).useWebhooks <;>
    cases hp : (mergeConfig s.config options).usePolling <;>
      simp [startSync, startPolling, hw, hp, connectWebSocket_config,
        connectAttempt_mem_connectWebSocket]

/-- C9 amended witness: starting the freshly constructed service with empty
options (polling enabled by default) starts polling at the default
interval, with no rejection. -/
theorem C9_amended_witness :
    Output.pollStarted defaultConfig.pollingInterval ∈ (startSync {} initState).2 :=
  ((C9_amended {} initState).2.1 rfl).2

end GitHubSync
